import Mathlib

/-
Verification development for the aws-sdk-demos repository.

The repository holds five standalone demo scripts driving a key-value table
service (DynamoDB) and an object store (S3) through a provider SDK:
  src/python/ddb-create-tbl-waiter.py    create table, wait until it exists
  src/python/ddb-high-level-interface.py create/put/query/scan/delete (resource API)
  src/python/ddb-low-level-interface.py  create/put/query/scan/delete (client API)
  src/s3_low-level-client.py             create bucket, put object, list objects
  src/s3_high-level-resource-client.py   same via the resource API

The remote-service semantics (table/bucket state, putItem, query, scan,
waiters) live in the provider, not in this repository; those parts are
modelled from the specification document, as marked on each definition.
The control flow that IS in the scripts (error handlers, exit paths,
the bucket-creation request shape, the Contents guard) is embedded
directly from the source.
-/

set_option autoImplicit false

namespace AwsDemo

/-! ## Attribute values and items -/

/-- Wire-form attribute value of the key-value table: a tagged scalar.
The low-level script writes values as tagged dicts such as S or N tags
(src/python/ddb-low-level-interface.py lines 90-109); numbers travel as
decimal strings. -/
inductive AttrValue where
  | S (s : String)
  | N (n : String)
  deriving DecidableEq, Repr

/-- An item is a mapping from attribute name to tagged value, represented
as an association list in write order. -/
abbrev Item := List (String × AttrValue)

/-- Look up an attribute of an item by name (first binding wins). -/
def Item.attr (i : Item) (name : String) : Option AttrValue :=
  (i.find? (fun p => p.1 == name)).map (fun p => p.2)

/-- Key schema of a table: a required partition key and an optional sort
key, as sent by the create-table calls in all three DynamoDB scripts. -/
structure KeySchema where
  partitionKey : String
  sortKey : Option String
  deriving DecidableEq, Repr

/-- The full primary key of an item: partition value plus optional sort
value. -/
abbrev ItemKey := AttrValue × Option AttrValue

/-- Extract the primary key of an item under a schema; none when a key
attribute is missing (the ValidationError case of putItem). -/
def keyOf (ks : KeySchema) (i : Item) : Option ItemKey :=
  match i.attr ks.partitionKey with
  | none => none
  | some p =>
    match ks.sortKey with
    | none => some (p, none)
    | some sk =>
      match i.attr sk with
      | none => none
      | some s => some (p, some s)

/-! ## Table state -/

/-- Lifecycle status of a table: created in a pending-creation state,
then active. Modelled from the spec: "transitions through a pending
state to active". -/
inductive TableStatus where
  | creating
  | active
  deriving DecidableEq, Repr

/-- Error taxonomy of the table client, from the spec error-handling
design (section 7). -/
inductive DbError where
  | alreadyExists
  | notFound
  | validationError
  deriving DecidableEq, Repr

/-- State of one table: its schema, lifecycle status, and stored items. -/
structure TableState where
  keySchema : KeySchema
  status : TableStatus
  items : List Item
  deriving DecidableEq, Repr

/-- Replace the first item whose key equals k by it, or append it when no
item has that key. Helper for putItem (overwrite-by-key semantics). -/
def putList (ks : KeySchema) : List Item → ItemKey → Item → List Item
  | [], _, it => [it]
  | x :: xs, k, it =>
    if keyOf ks x = some k then it :: xs else x :: putList ks xs k it

/-- Modelled from the spec: putItem "fully overwrites any existing item
with the same key; fails with ValidationError if a key attribute is
missing". The write itself is performed by the provider; the scripts only
issue put_item calls. -/
def putItem (t : TableState) (i : Item) : Except DbError TableState :=
  match keyOf t.keySchema i with
  | none => .error .validationError
  | some k => .ok { t with items := putList t.keySchema t.items k i }

/-- Response shape of query and scan: the items plus a reported count, as
in the Count and Items fields the scripts read back. -/
structure QueryResponse where
  items : List Item
  count : Nat
  deriving DecidableEq, Repr

/-- Modelled from the spec: query "returns all items whose partition key
matches exactly", with a reported count. -/
def query (t : TableState) (pk : AttrValue) : QueryResponse :=
  let found := t.items.filter (fun i => i.attr t.keySchema.partitionKey == some pk)
  ⟨found, found.length⟩

/-- Modelled from the spec: scan "returns all items in the table,
unordered", with a reported count. -/
def scan (t : TableState) : QueryResponse :=
  ⟨t.items, t.items.length⟩

/-- Count of items in a list bearing a given primary key. -/
def countKey (ks : KeySchema) (xs : List Item) (k : ItemKey) : Nat :=
  xs.countP (fun x => decide (keyOf ks x = some k))

/-- A table is well keyed when no primary key occurs twice; every table
the provider maintains satisfies this. -/
def wellKeyed (ks : KeySchema) (xs : List Item) : Prop :=
  ∀ k : ItemKey, countKey ks xs k ≤ 1

/-! ## System state: the named-table registry -/

/-- Observable system state: the map from table name to table state. -/
abbrev SystemState := String → Option TableState

/-- Modelled from the spec: createTable "fails with AlreadyExists if the
name is in use; otherwise returns a descriptor in a pending-creation
state". Returns the new descriptor together with the updated system. -/
def createTable (sys : SystemState) (name : String) (ks : KeySchema) :
    Except DbError (TableState × SystemState) :=
  match sys name with
  | some _ => .error .alreadyExists
  | none =>
    let t : TableState := ⟨ks, .creating, []⟩
    .ok (t, fun n => if n = name then some t else sys n)

/-- Modelled from the spec: the effect on the system of a completed wait,
namely the pending table having become active; contents and the rest of
the system are untouched. -/
def activateTable (sys : SystemState) (name : String) : SystemState :=
  fun n =>
    if n = name then (sys n).map (fun t => { t with status := .active })
    else sys n

/-- Modelled from the spec: deleteTable removes the named table, failing
with NotFound when it is absent. -/
def deleteTable (sys : SystemState) (name : String) : Except DbError SystemState :=
  match sys name with
  | none => .error .notFound
  | some _ => .ok (fun n => if n = name then none else sys n)

/-! ## The waiter -/

/-- Outcome of a bounded polling wait. -/
inductive WaitResult where
  | reached (attempt : Nat)
  | timeout
  deriving DecidableEq, Repr

/-- One polling loop: attempt number a polls the status at time
a * pollInterval; n attempts remain. -/
def waitLoop (status : Nat → Bool) (pollInterval : Nat) : Nat → Nat → WaitResult
  | 0, _ => .timeout
  | n + 1, a =>
    if status (a * pollInterval) then .reached a
    else waitLoop status pollInterval n (a + 1)

/-- Modelled from the spec: waitUntilActive "polls status at the given
interval; fails with Timeout if the resource has not reached the active
state within pollInterval * maxAttempts". Attempts are numbered 1 to
maxAttempts; attempt a observes the status at time a * pollInterval. The
scripts configure Delay 2 and MaxAttempts 30
(src/python/ddb-create-tbl-waiter.py lines 44-52). -/
def waitUntilActive (status : Nat → Bool) (pollInterval maxAttempts : Nat) : WaitResult :=
  waitLoop status pollInterval maxAttempts 1

/-- A status history is monotone when the active state, once reached, is
kept: the table lifecycle of the data model (pending then active, one
way). -/
def monotoneStatus (status : Nat → Bool) : Prop :=
  ∀ s t : Nat, s ≤ t → status s = true → status t = true

/-! ## Object store -/

/-- A stored object: key and byte payload (bytes as naturals below 256 in
the source payloads; the size only depends on the length). -/
structure S3Object where
  key : String
  body : List Nat
  deriving DecidableEq, Repr

/-- A bucket is its list of objects in store order. -/
abbrev Bucket := List S3Object

/-- One entry of a list-objects response: the metadata the scripts print
(key and size; src/s3_low-level-client.py lines 66-71). -/
structure ListEntry where
  key : String
  size : Nat
  deriving DecidableEq, Repr

/-- Modelled from the spec: putObject writes a payload under a key,
overwriting any object already stored under it. -/
def putObject : Bucket → String → List Nat → Bucket
  | [], k, body => [⟨k, body⟩]
  | o :: os, k, body =>
    if o.key = k then ⟨k, body⟩ :: os else o :: putObject os k body

/-- Modelled from the spec: listObjects enumerates the bucket, reporting
each key with the byte length of its payload. -/
def listObjects (b : Bucket) : List ListEntry :=
  b.map (fun o => ⟨o.key, o.body.length⟩)

/-! ## The low-level listing response and its Contents guard -/

/-- Response of list_objects_v2 as the low-level script sees it: the
Contents key is absent (none) when the bucket is empty, else present with
the entries. -/
structure ListObjectsResponse where
  contents : Option (List ListEntry)
  deriving DecidableEq, Repr

/-- Dictionary access to the Contents key: raises KeyError (the error
branch) when the key is absent. -/
def getContents (r : ListObjectsResponse) : Except String (List ListEntry) :=
  match r.contents with
  | some c => .ok c
  | none => .error "KeyError"

/-- What the listing path reports. -/
inductive ListingReport where
  | entries (xs : List ListEntry)
  | noObjects
  deriving DecidableEq, Repr

/-- Embeds src/s3_low-level-client.py lines 65-73: the script tests
membership of Contents in the response and only then reads it; an absent
Contents key yields the no-objects report. -/
def renderListing (r : ListObjectsResponse) : Except String ListingReport :=
  if r.contents.isSome then
    (getContents r).map ListingReport.entries
  else
    .ok .noObjects

/-! ## Bucket-creation request shape -/

/-- The create-bucket request: bucket name, and the LocationConstraint of
the CreateBucketConfiguration when one is sent. -/
structure CreateBucketRequest where
  bucket : String
  locationConstraint : Option String
  deriving DecidableEq, Repr

/-- Embeds the branch at src/s3_low-level-client.py lines 41-49 and
src/s3_high-level-resource-client.py lines 47-53: us-east-1 sends only
the bucket name, every other region adds a CreateBucketConfiguration
with the region as LocationConstraint. -/
def mkCreateBucketRequest (region bucket : String) : CreateBucketRequest :=
  if region = "us-east-1" then ⟨bucket, none⟩
  else ⟨bucket, some region⟩

/-- The region constant both S3 scripts configure (line 28 of the
low-level script, line 35 of the resource script). -/
def s3ConfiguredRegion : String := "eu-west-2"

/-! ## Script-level error handling -/

/-- An error surfacing from a remote call during a run: a provider
ClientError carrying its error code, or any other exception. -/
inductive ScriptError where
  | clientError (code : String)
  | otherError (message : String)
  deriving DecidableEq, Repr

/-- How a run of a script ends: the process exits with a status code, or
an exception propagates unhandled to the interpreter. -/
inductive RunOutcome where
  | exited (code : Nat)
  | unhandled (e : ScriptError)
  deriving DecidableEq, Repr

/-- Embeds the handlers of src/s3_low-level-client.py lines 75-80 and
src/s3_high-level-resource-client.py lines 75-80: both scripts catch
ClientError and every other exception alike, print the error, and call
sys.exit(1); a run without failure falls off main and exits 0. The
argument is the first error raised by a remote call, if any. -/
def s3ScriptRun (failure : Option ScriptError) : RunOutcome :=
  match failure with
  | none => .exited 0
  | some (.clientError _) => .exited 1
  | some (.otherError _) => .exited 1

/-- What a run of the waiter script records: whether the already-exists
message was printed, and how the process ended. -/
structure WaiterScriptRun where
  printedAlreadyExists : Bool
  outcome : RunOutcome
  deriving DecidableEq, Repr

/-- Embeds src/python/ddb-create-tbl-waiter.py lines 61-67 and 82-85:
create_table_and_wait catches ClientError, prints an already-exists
message exactly when the code is ResourceInUseException (a generic error
message otherwise), and re-raises in BOTH cases; main catches every
ClientError, prints, and returns, so the process exits 0. Any
non-ClientError exception propagates unhandled. -/
def ddbWaiterRun (failure : Option ScriptError) : WaiterScriptRun :=
  match failure with
  | none => ⟨false, .exited 0⟩
  | some (.clientError code) => ⟨code = "ResourceInUseException", .exited 0⟩
  | some (.otherError m) => ⟨false, .unhandled (.otherError m)⟩

/-- Embeds the try/except/finally of the low-level table demo script
(src/python/ddb-low-level-interface.py lines 150-164). The client
binding dynamodb is made before the try (line 45), so the cleanup in
finally can always run: every ClientError of the body or the cleanup is
caught and printed and the process exits 0; other exceptions run the
cleanup and then propagate unhandled. -/
def ddbLowLevelRun (failure : Option ScriptError) : RunOutcome :=
  match failure with
  | none => .exited 0
  | some (.clientError _) => .exited 0
  | some (.otherError m) => .unhandled (.otherError m)

/-- Where in the body of the high-level table demo script a failure
arises: at the create_table call itself (line 43), before the local
variable table is bound, or at a later call, with table bound. -/
inductive DemoFailure where
  | atCreate (e : ScriptError)
  | afterCreate (e : ScriptError)
  deriving DecidableEq, Repr

/-- Embeds the try/except/finally of the high-level table demo script
(src/python/ddb-high-level-interface.py lines 38-151). The local
variable table is first bound by the create_table call inside the try
(line 43). When the failure arises at that call, the except prints, but
the cleanup table.delete() in finally (line 143) then reads the unbound
local, and the resulting UnboundLocalError is not a ClientError, so the
except of the finally (line 150) does not catch it: it propagates
unhandled, replacing the original error, and the process exits non-zero.
When the failure arises after table is bound, a ClientError is caught
and printed and the cleanup runs, so the process exits 0, while other
exceptions run the cleanup and then propagate unhandled. -/
def ddbHighLevelRun (failure : Option DemoFailure) : RunOutcome :=
  match failure with
  | none => .exited 0
  | some (.atCreate (.clientError _)) => .unhandled (.otherError "UnboundLocalError")
  | some (.atCreate (.otherError _)) => .unhandled (.otherError "UnboundLocalError")
  | some (.afterCreate (.clientError _)) => .exited 0
  | some (.afterCreate (.otherError m)) => .unhandled (.otherError m)

/-- An error code counts as resource-already-exists or not-found: the two
classes the spec propagation policy singles out, under the provider codes
the scripts mention plus the S3 equivalents. -/
def isRecoverableClass : ScriptError → Bool
  | .clientError code =>
      code = "ResourceInUseException" || code = "ResourceNotFoundException" ||
      code = "BucketAlreadyExists" || code = "BucketAlreadyOwnedByYou" ||
      code = "NoSuchBucket"
  | .otherError _ => false

/-- The propagation policy claimed by the spec, for one script whose run
maps an injected error to an outcome: already-exists and not-found errors
end in a success-equivalent exit 0, every other error propagates
unhandled. -/
def errorPropagationPolicy (run : Option ScriptError → RunOutcome) : Prop :=
  ∀ e : ScriptError,
    (isRecoverableClass e = true → run (some e) = .exited 0) ∧
    (isRecoverableClass e = false → run (some e) = .unhandled e)

/-! ## Concrete data of the table scripts -/

/-- The key schema both table demo scripts create: StudentId hash key,
CourseId range key. -/
def studentsKeySchema : KeySchema := ⟨"StudentId", some "CourseId"⟩

/-- First item the low-level script writes
(src/python/ddb-low-level-interface.py lines 91-96). -/
def itemStu001Cs101 : Item :=
  [("StudentId", .S "STU001"), ("CourseId", .S "CS101"),
   ("StudentName", .S "Sam Johnson"), ("Grade", .N "85")]

/-- Second item the low-level script writes (lines 97-102). -/
def itemStu001Math201 : Item :=
  [("StudentId", .S "STU001"), ("CourseId", .S "MATH201"),
   ("StudentName", .S "Sam Johnson"), ("Grade", .N "92")]

/-- Third item the low-level script writes (lines 103-108). -/
def itemStu002Cs101 : Item :=
  [("StudentId", .S "STU002"), ("CourseId", .S "CS101"),
   ("StudentName", .S "Bob Molson"), ("Grade", .N "78")]

/-- The freshly created Students table, before any write. -/
def studentsEmpty : TableState := ⟨studentsKeySchema, .active, []⟩

/-- The table after the script loops put_item over its three items
(src/python/ddb-low-level-interface.py lines 111-115). -/
def studentsTable : Except DbError TableState := do
  let t1 ← putItem studentsEmpty itemStu001Cs101
  let t2 ← putItem t1 itemStu001Math201
  putItem t2 itemStu002Cs101

/-- The populated Students table: exactly the three items of the script. -/
def studentsFull : TableState :=
  ⟨studentsKeySchema, .active, [itemStu001Cs101, itemStu001Math201, itemStu002Cs101]⟩

/-! ## Theorems -/

/-- Helper: the polling loop times out exactly when every polled attempt
in its window observes a non-active status. -/
theorem waitLoop_timeout_iff (status : Nat → Bool) (p : Nat) :
    ∀ n a, waitLoop status p n a = .timeout ↔
      ∀ i, a ≤ i → i < a + n → status (i * p) = false := by
  intro n
  induction n with
  | zero =>
    intro a
    constructor
    · intro _ i h1 h2
      exact absurd h2 (by omega)
    · intro _
      rfl
  | succ n ih =>
    intro a
    cases hs : status (a * p) with
    | false =>
      have hrw : waitLoop status p (n + 1) a = waitLoop status p n (a + 1) := by
        simp [waitLoop, hs]
      rw [hrw, ih (a + 1)]
      constructor
      · intro h i h1 h2
        rcases Nat.eq_or_lt_of_le h1 with he | hl
        · rw [← he]
          exact hs
        · exact h i hl (by omega)
      · intro h i h1 h2
        exact h i (by omega) (by omega)
    | true =>
      have hrw : waitLoop status p (n + 1) a = .reached a := by
        simp [waitLoop, hs]
      rw [hrw]
      constructor
      · intro h
        exact WaitResult.noConfusion h
      · intro h
        have hfa := h a (Nat.le_refl a) (by omega)
        rw [hfa] at hs
        exact Bool.noConfusion hs

/-- Helper: the polling loop reports the first attempt that observes the
active status, provided it falls inside the window. -/
theorem waitLoop_reached_first (status : Nat → Bool) (p : Nat) :
    ∀ n a b, a ≤ b → b < a + n → status (b * p) = true →
      (∀ c, a ≤ c → c < b → status (c * p) = false) →
      waitLoop status p n a = .reached b := by
  intro n
  induction n with
  | zero =>
    intro a b h1 h2 _ _
    exact absurd h2 (by omega)
  | succ n ih =>
    intro a b h1 h2 hb hfirst
    rcases Nat.eq_or_lt_of_le h1 with he | hl
    · rw [← he] at hb ⊢
      simp [waitLoop, hb]
    · have hs : status (a * p) = false := hfirst a (Nat.le_refl a) hl
      have hrw : waitLoop status p (n + 1) a = waitLoop status p n (a + 1) := by
        simp [waitLoop, hs]
      rw [hrw]
      exact ih (a + 1) b (by omega) (by omega) hb
        (fun c hc1 hc2 => hfirst c (by omega) hc2)

/-- C2: for a monotone status history (pending then active, one way),
the script waiter configuration — poll interval 2, at most 30 attempts —
times out exactly when the resource is not active anywhere within
2 * 30 = 60 time units, and reports success at the first attempt whose
observation is active, whenever that attempt is at most the 30th. -/
theorem waitUntilActive_spec (status : Nat → Bool) (hmono : monotoneStatus status) :
    (waitUntilActive status 2 30 = .timeout ↔ ∀ t, t ≤ 60 → status t = false) ∧
    (∀ a, 1 ≤ a → a ≤ 30 → status (a * 2) = true →
      (∀ b, 1 ≤ b → b < a → status (b * 2) = false) →
      waitUntilActive status 2 30 = .reached a) := by
  constructor
  · unfold waitUntilActive
    rw [waitLoop_timeout_iff]
    constructor
    · intro h t ht
      cases hstat : status t with
      | false => rfl
      | true =>
        have h60 : status 60 = true := hmono t 60 ht hstat
        have h30 := h 30 (by omega) (by omega)
        norm_num at h30
        rw [h30] at h60
        exact Bool.noConfusion h60
    · intro h i h1 h2
      exact h (i * 2) (by omega)
  · intro a h1 h2 hb hfirst
    unfold waitUntilActive
    exact waitLoop_reached_first status 2 30 1 a h1 (by omega) hb
      (fun c hc1 hc2 => hfirst c hc1 hc2)

/-- C2 (witness): a resource that becomes active at time 10 is reported
reached at attempt 5 — the first attempt observing it — under the script
configuration. -/
theorem waitUntilActive_spec_witness :
    waitUntilActive (fun t => decide (10 ≤ t)) 2 30 = WaitResult.reached 5 :=
  (waitUntilActive_spec (fun t => decide (10 ≤ t))
      (by
        intro s t hst hs
        simp only [decide_eq_true_eq] at hs ⊢
        omega)).2
    5 (by decide) (by decide) (by decide)
    (by
      intro b hb1 hb2
      simp only [decide_eq_false_iff_not]
      omega)

/-- Helper: the key count of the empty item list. -/
theorem countKey_nil (ks : KeySchema) (k : ItemKey) : countKey ks [] k = 0 := rfl

/-- Helper: the key count of a cons counts the head when its key
matches. -/
theorem countKey_cons (ks : KeySchema) (k : ItemKey) (x : Item) (xs : List Item) :
    countKey ks (x :: xs) k =
      countKey ks xs k + if keyOf ks x = some k then 1 else 0 := by
  by_cases hk : keyOf ks x = some k <;> simp [countKey, List.countP_cons, hk]

/-- Helper: overwriting by key leaves exactly one item under the written
key, provided the table had at most one before. -/
theorem countKey_putList (ks : KeySchema) (k : ItemKey) (it : Item)
    (hit : keyOf ks it = some k) :
    ∀ xs : List Item, countKey ks xs k ≤ 1 →
      countKey ks (putList ks xs k it) k = 1 := by
  intro xs
  induction xs with
  | nil =>
    intro _
    simp [putList, countKey_cons, countKey_nil, hit]
  | cons x xs ih =>
    intro hx
    rw [countKey_cons] at hx
    by_cases hk : keyOf ks x = some k
    · rw [if_pos hk] at hx
      have hx2 : countKey ks xs k = 0 := by omega
      simp [putList, hk, countKey_cons, hit, hx2]
    · rw [if_neg hk] at hx
      simp [putList, hk, countKey_cons]
      exact ih (by omega)

/-- Helper: writing the same item twice by key is the same as writing it
once. -/
theorem putList_put_twice (ks : KeySchema) (k : ItemKey) (it : Item)
    (hit : keyOf ks it = some k) :
    ∀ xs : List Item, putList ks (putList ks xs k it) k it = putList ks xs k it := by
  intro xs
  induction xs with
  | nil => simp [putList, hit]
  | cons x xs ih =>
    by_cases hk : keyOf ks x = some k
    · simp [putList, hk, hit]
    · simp [putList, hk, ih]

/-- Helper: the written item is present after the write. -/
theorem mem_putList (ks : KeySchema) (k : ItemKey) (it : Item) :
    ∀ xs : List Item, it ∈ putList ks xs k it := by
  intro xs
  induction xs with
  | nil => simp [putList]
  | cons x xs ih =>
    by_cases hk : keyOf ks x = some k <;> simp [putList, hk, ih]

/-- C3: putItem is idempotent. On a well-keyed table, writing an item
and writing it again gives the same table state; that state carries
exactly one item under the written key, and a scan returns the written
item once, not twice. -/
theorem putItem_idempotent (t : TableState) (i : Item) (k : ItemKey)
    (hk : keyOf t.keySchema i = some k) (hw : wellKeyed t.keySchema t.items) :
    ∃ t1, putItem t i = .ok t1 ∧ putItem t1 i = .ok t1 ∧
      countKey t1.keySchema t1.items k = 1 ∧
      (scan t1).items.countP (fun x => decide (keyOf t1.keySchema x = some k)) = 1 ∧
      i ∈ (scan t1).items := by
  refine ⟨{ t with items := putList t.keySchema t.items k i }, ?_, ?_, ?_, ?_, ?_⟩
  · simp [putItem, hk]
  · simp [putItem, hk, putList_put_twice t.keySchema k i hk]
  · simpa using countKey_putList t.keySchema k i hk t.items (hw k)
  · simpa [scan, countKey] using countKey_putList t.keySchema k i hk t.items (hw k)
  · simpa [scan] using mem_putList t.keySchema k i t.items

/-- C3 (witness): writing the first script item twice into the fresh
Students table leaves a single copy, visible once in a scan. -/
theorem putItem_idempotent_witness :
    ∃ t1, putItem studentsEmpty itemStu001Cs101 = .ok t1 ∧
      putItem t1 itemStu001Cs101 = .ok t1 ∧
      countKey t1.keySchema t1.items (.S "STU001", some (.S "CS101")) = 1 ∧
      (scan t1).items.countP
        (fun x => decide (keyOf t1.keySchema x = some (.S "STU001", some (.S "CS101")))) = 1 ∧
      itemStu001Cs101 ∈ (scan t1).items :=
  putItem_idempotent studentsEmpty itemStu001Cs101 (.S "STU001", some (.S "CS101"))
    (by decide) (fun k => by simp [countKey, studentsEmpty])

/-- C4: round-trip. When the name is free, createTable then the wait
completing (the table turning active) then deleteTable returns the
system — the map from names to tables and their contents — to exactly
its prior state. -/
theorem createTable_roundTrip (sys : SystemState) (name : String) (ks : KeySchema)
    (h : sys name = none) :
    ∃ t sys1,
      createTable sys name ks = .ok (t, sys1) ∧
      deleteTable (activateTable sys1 name) name = .ok sys := by
  refine ⟨⟨ks, .creating, []⟩,
    fun n => if n = name then some ⟨ks, .creating, []⟩ else sys n, ?_, ?_⟩
  · simp [createTable, h]
  · have hact : activateTable
        (fun n => if n = name then some ⟨ks, .creating, []⟩ else sys n) name
        = fun n => if n = name then some ⟨ks, .active, []⟩ else sys n := by
      funext n
      by_cases hn : n = name <;> simp [activateTable, hn]
    rw [hact]
    have hdel : deleteTable
        (fun n => if n = name then some (⟨ks, .active, []⟩ : TableState) else sys n) name
        = .ok (fun n => if n = name then none
            else if n = name then some ⟨ks, .active, []⟩ else sys n) := by
      simp [deleteTable]
    rw [hdel]
    congr 1
    funext n
    by_cases hn : n = name <;> simp [hn, h]

/-- C4 (witness): on the empty system, creating, activating and deleting
the Students-Document table of the high-level script is the identity. -/
theorem createTable_roundTrip_witness :
    ∃ t sys1,
      createTable (fun _ => none) "Students-Document" studentsKeySchema = .ok (t, sys1) ∧
      deleteTable (activateTable sys1 "Students-Document") "Students-Document" =
        .ok (fun _ => none) :=
  createTable_roundTrip (fun _ => none) "Students-Document" studentsKeySchema rfl

/-- C8: createTable fails with AlreadyExists exactly when the name is
already bound in the system; on a free name it succeeds and the returned
descriptor is in the pending-creation status. -/
theorem createTable_alreadyExists_iff (sys : SystemState) (name : String) (ks : KeySchema) :
    (createTable sys name ks = .error .alreadyExists ↔ (sys name).isSome = true) ∧
    (sys name = none →
      createTable sys name ks =
        .ok (⟨ks, .creating, []⟩,
          fun n => if n = name then some ⟨ks, .creating, []⟩ else sys n)) := by
  constructor
  · cases h : sys name <;> simp [createTable, h]
  · intro h
    simp [createTable, h]

/-- C8 (witness): creating the Students-LowLevel table on the empty
system succeeds with a descriptor in the creating status. -/
theorem createTable_alreadyExists_iff_witness :
    createTable (fun _ => none) "Students-LowLevel" studentsKeySchema =
      .ok (⟨studentsKeySchema, .creating, []⟩,
        fun n => if n = "Students-LowLevel"
          then some ⟨studentsKeySchema, .creating, []⟩ else none) :=
  (createTable_alreadyExists_iff (fun _ => none) "Students-LowLevel" studentsKeySchema).2 rfl

/-- C1 (counterexample): the spec propagation policy fails on the
low-level S3 script. At the concrete error BucketAlreadyExists — a
resource-already-exists condition — the script does not report a
recoverable, success-equivalent outcome: its handler calls sys.exit(1),
so the run ends in exit status 1. -/
theorem errorPolicy_fails_on_s3_script : ¬ errorPropagationPolicy s3ScriptRun := by
  intro h
  have h1 := (h (.clientError "BucketAlreadyExists")).1 (by decide)
  exact absurd h1 (by decide)

/-- C1 (amended): what the scripts actually do with a failing remote
call. The S3 scripts catch every error, client or not, and exit with
status 1 — including already-exists. The waiter script prints a
distinguishing message exactly for ResourceInUseException, re-raises,
and its main then catches every ClientError and exits 0; only
non-client exceptions propagate unhandled. The low-level table demo
script swallows every ClientError (exit 0) and lets other exceptions
propagate. The high-level table demo script does the same only when the
failure arises after its table local is bound: a failure at the
create_table call itself — including already-exists — leaves the local
unbound and the cleanup in finally raises an UnboundLocalError that
propagates unhandled, a non-zero exit. -/
theorem script_error_handling (code m : String) :
    s3ScriptRun (some (.clientError code)) = .exited 1 ∧
    s3ScriptRun (some (.otherError m)) = .exited 1 ∧
    (ddbWaiterRun (some (.clientError code))).outcome = .exited 0 ∧
    (ddbWaiterRun (some (.clientError "ResourceInUseException"))).printedAlreadyExists = true ∧
    (ddbWaiterRun (some (.otherError m))).outcome = .unhandled (.otherError m) ∧
    ddbLowLevelRun (some (.clientError code)) = .exited 0 ∧
    ddbLowLevelRun (some (.otherError m)) = .unhandled (.otherError m) ∧
    ddbHighLevelRun (some (.atCreate (.clientError code))) =
      .unhandled (.otherError "UnboundLocalError") ∧
    ddbHighLevelRun (some (.atCreate (.otherError m))) =
      .unhandled (.otherError "UnboundLocalError") ∧
    ddbHighLevelRun (some (.afterCreate (.clientError code))) = .exited 0 ∧
    ddbHighLevelRun (some (.afterCreate (.otherError m))) = .unhandled (.otherError m) :=
  ⟨rfl, rfl, rfl, by decide, rfl, rfl, rfl, rfl, rfl, rfl, rfl⟩

/-- C5: on the table holding exactly the three script items, querying
partition key STU001 returns exactly the two STU001 items in write
order, reports count 2, and returns no item with another partition
key. -/
theorem query_stu001_two_items :
    studentsTable = .ok studentsFull ∧
    query studentsFull (.S "STU001") = ⟨[itemStu001Cs101, itemStu001Math201], 2⟩ ∧
    ∀ i ∈ (query studentsFull (.S "STU001")).items,
      i.attr "StudentId" = some (.S "STU001") := by
  refine ⟨rfl, rfl, ?_⟩
  decide

/-- C5 (witness): the first returned item indeed carries partition key
STU001. -/
theorem query_stu001_two_items_witness :
    Item.attr itemStu001Cs101 "StudentId" = some (.S "STU001") :=
  query_stu001_two_items.2.2 itemStu001Cs101 (by decide)

/-- C7: on the same table, scan returns all three items — equal as a
multiset to the written items — and reports count 3. -/
theorem scan_three_items :
    studentsTable = .ok studentsFull ∧
    (scan studentsFull).count = 3 ∧
    List.Perm (scan studentsFull).items
      [itemStu001Cs101, itemStu001Math201, itemStu002Cs101] :=
  ⟨rfl, rfl, List.Perm.refl _⟩

/-- C6: listing a freshly created bucket right after putObject of key
sample-file.txt returns exactly one entry, carrying that key and the
byte length of the payload, for every payload. -/
theorem listObjects_after_putObject (body : List Nat) :
    listObjects (putObject ([] : Bucket) "sample-file.txt" body) =
      [⟨"sample-file.txt", body.length⟩] := rfl

/-- C9: the bucket-creation request carries a LocationConstraint equal
to the configured region exactly when that region is not us-east-1; for
us-east-1 the request is the bare bucket name, and for the regions the
scripts configure (eu-west-2) the constraint is present. -/
theorem createBucketRequest_location (region bucket : String) :
    ((mkCreateBucketRequest region bucket).locationConstraint = some region ↔
      region ≠ "us-east-1") ∧
    mkCreateBucketRequest "us-east-1" bucket = ⟨bucket, none⟩ ∧
    mkCreateBucketRequest s3ConfiguredRegion bucket = ⟨bucket, some s3ConfiguredRegion⟩ := by
  refine ⟨?_, by simp [mkCreateBucketRequest], ?_⟩
  · by_cases h : region = "us-east-1" <;> simp [mkCreateBucketRequest, h]
  · simp only [mkCreateBucketRequest, s3ConfiguredRegion]
    rw [if_neg (by decide)]

/-- C9 (witness): at the configured region eu-west-2 the request
contains the location constraint. -/
theorem createBucketRequest_location_witness :
    (mkCreateBucketRequest s3ConfiguredRegion "my-demo-bucket").locationConstraint =
      some s3ConfiguredRegion :=
  (createBucketRequest_location s3ConfiguredRegion "my-demo-bucket").1.mpr (by decide)

/-- C10: the guarded listing path is total: every list_objects_v2
response renders to a report without a key lookup failure, and a
response with no Contents key renders to the no-objects report. -/
theorem renderListing_total (r : ListObjectsResponse) :
    (∃ rep, renderListing r = .ok rep) ∧
    (r.contents = none → renderListing r = .ok .noObjects) := by
  obtain ⟨c⟩ := r
  cases c <;> simp [renderListing, getContents, Except.map]

/-- C10 (witness): the empty-bucket response, Contents absent, yields
the no-objects report. -/
theorem renderListing_total_witness :
    renderListing ⟨none⟩ = .ok .noObjects :=
  (renderListing_total ⟨none⟩).2 rfl

end AwsDemo
